import Mathlib

/-!
Verification of the Scan Orchestration & Detection Engine of ThreatSense.

This file shallowly embeds the worker-side Python code of the repository
(`apps/worker/tasks/scan_task.py`, `apps/worker/plugins/soc_rules.py`,
`apps/worker/plugins/nuclei_scan.py`, `apps/worker/plugins/base.py`) as
executable Lean definitions and proves the specification's claims about it.

Modelling conventions:
* Python `datetime` values are integers (seconds); `timedelta(minutes=m)`
  is `m * 60`.
* A Python dict field that may be absent or `None` is an `Option`;
  Python truthiness-based defaulting (`x or d`) is `pyOrStr` / `pyOrInt` /
  `pyOrList` (the empty string, `0` and the empty list are falsy).
* `dict`/`defaultdict` values are association lists in insertion order,
  which is exactly CPython's dict iteration order; a Python `set` is a
  duplicate-free list (only its cardinality and membership are consumed).
* Filesystem writes and subprocess invocations performed by the code are
  returned as explicit effect data (`writes`, `procCalls`) alongside the
  plugin result, so that "no file written" / "no process spawned" are
  provable statements.
-/

/-- Python `v or d` for an optional string: `None` and `""` are falsy. -/
def pyOrStr (v : Option String) (d : String) : String :=
  match v with
  | none => d
  | some s => if s = "" then d else s

/-- Python `int(v or d)` for an optional int: `None` and `0` are falsy. -/
def pyOrInt (v : Option Int) (d : Int) : Int :=
  match v with
  | none => d
  | some n => if n = 0 then d else n

/-- Python `v or d` for an optional list: `None` and `[]` are falsy. -/
def pyOrList {α : Type} (v : Option (List α)) (d : List α) : List α :=
  match v with
  | none => d
  | some l => if l.isEmpty then d else l

/-- Python `bool(v or False)` for an optional bool. -/
def pyOrBool (v : Option Bool) : Bool := v.getD false

/-- One finding draft, as the plugins emit it (`dict` with these keys). -/
structure Finding where
  title : String
  severity : String
  category : String
  evidence : String
  remediation : String
deriving DecidableEq, Repr

/-- `plugins/base.py`: the result returned by every plugin `run`. -/
structure PluginResult where
  findings : List Finding
  artifact_path : Option String
deriving DecidableEq, Repr

/-! ### First-occurrence deduplication

CPython dicts iterate keys in insertion order, so iterating a
`defaultdict` built from a stream of keys visits each distinct key once,
at its first occurrence. `dedupF` is that key order. -/

/-- Keys of a stream in first-occurrence order, each once. -/
def dedupF {α : Type} [DecidableEq α] : List α → List α
  | [] => []
  | x :: xs => x :: (dedupF xs).erase x

theorem nodup_dedupF {α : Type} [DecidableEq α] (l : List α) : (dedupF l).Nodup := by
  induction l with
  | nil => simp [dedupF]
  | cons x xs ih =>
    simp only [dedupF, List.nodup_cons]
    exact ⟨ih.not_mem_erase, ih.erase x⟩

theorem mem_dedupF {α : Type} [DecidableEq α] {a : α} {l : List α} :
    a ∈ dedupF l ↔ a ∈ l := by
  induction l with
  | nil => simp [dedupF]
  | cons x xs ih =>
    simp only [dedupF, List.mem_cons]
    constructor
    · rintro (rfl | h)
      · exact Or.inl rfl
      · exact Or.inr (ih.mp ((nodup_dedupF xs).mem_erase_iff.mp h).2)
    · rintro (rfl | h)
      · exact Or.inl rfl
      · by_cases hax : a = x
        · exact Or.inl hax
        · exact Or.inr ((nodup_dedupF xs).mem_erase_iff.mpr ⟨hax, ih.mpr h⟩)

theorem dedupF_append_singleton {α : Type} [DecidableEq α] (l : List α) (k : α) :
    dedupF (l ++ [k]) = if k ∈ l then dedupF l else dedupF l ++ [k] := by
  induction l with
  | nil => simp [dedupF]
  | cons x xs ih =>
    show x :: (dedupF (xs ++ [k])).erase x = _
    rw [ih]
    by_cases hk : k ∈ xs
    · rw [if_pos hk, if_pos (List.mem_cons.mpr (Or.inr hk))]
      rfl
    · by_cases hkx : k = x
      · subst hkx
        rw [if_neg hk, if_pos (List.mem_cons.mpr (Or.inl rfl))]
        have hnm : k ∉ dedupF xs := fun h => hk (mem_dedupF.mp h)
        rw [List.erase_append_right _ hnm]
        show k :: (dedupF xs ++ [k].erase k) = dedupF (k :: xs)
        rw [List.erase_cons_head, List.append_nil]
        show k :: dedupF xs = k :: (dedupF xs).erase k
        rw [List.erase_of_not_mem hnm]
      · have hne : ¬ (k ∈ x :: xs) := by
          simp only [List.mem_cons]
          rintro (h | h)
          · exact hkx h
          · exact hk h
        rw [if_neg hk, if_neg hne]
        show x :: (dedupF xs ++ [k]).erase x = (x :: (dedupF xs).erase x) ++ [k]
        rw [List.cons_append]
        by_cases hx : x ∈ dedupF xs
        · rw [List.erase_append_left _ hx]
        · rw [List.erase_append_right _ hx, List.erase_of_not_mem hx]
          have hkx' : (k == x) = false := by
            simp only [beq_eq_false_iff_ne, ne_eq]; exact hkx
          simp [List.erase_cons, hkx']

/-! ### `defaultdict(int)` counters

`bump m k` is `m[k] += 1` on a `defaultdict(int)` represented as an
association list in insertion order; `buildCountsBy f xs` is the loop
`for x in xs: if f(x) is not None: m[f(x)] += 1`. -/

/-- `m[k] += 1` on an insertion-ordered association list. -/
def bump {α : Type} [DecidableEq α] (m : List (α × Nat)) (k : α) : List (α × Nat) :=
  if k ∈ m.map Prod.fst then
    m.map (fun p => if p.1 = k then (p.1, p.2 + 1) else p)
  else
    m ++ [(k, 1)]

/-- One iteration of the counting loop: bump the key of `x`, if any. -/
def bumpStep {α β : Type} [DecidableEq β] (f : α → Option β)
    (m : List (β × Nat)) (x : α) : List (β × Nat) :=
  match f x with | some k => bump m k | none => m

/-- Counting loop over a stream of optional keys. -/
def buildCountsBy {α β : Type} [DecidableEq β] (f : α → Option β) (xs : List α) :
    List (β × Nat) :=
  xs.foldl (bumpStep f) []

/-- Multiplicity of `a` in `l` (kept `DecidableEq`-based so the counter
in generic lemmas and the one in concrete statements share their
instances). -/
def cntOf {α : Type} [DecidableEq α] (l : List α) (a : α) : Nat :=
  (l.filter (fun b => b = a)).length

theorem cntOf_append {α : Type} [DecidableEq α] (l₁ l₂ : List α) (a : α) :
    cntOf (l₁ ++ l₂) a = cntOf l₁ a + cntOf l₂ a := by
  simp [cntOf, List.filter_append]

theorem cntOf_singleton {α : Type} [DecidableEq α] (b a : α) :
    cntOf [b] a = if b = a then 1 else 0 := by
  by_cases h : b = a
  · simp [cntOf, h]
  · simp [cntOf, h]

theorem cntOf_eq_zero {α : Type} [DecidableEq α] {l : List α} {a : α}
    (h : a ∉ l) : cntOf l a = 0 := by
  simp only [cntOf, List.length_eq_zero, List.filter_eq_nil_iff]
  intro b hb hba
  exact h ((of_decide_eq_true hba) ▸ hb)

/-- Declarative description of a finished counter: one entry per distinct
key in first-occurrence order, holding the key's multiplicity. -/
def countsSpec {α : Type} [DecidableEq α] (ks : List α) : List (α × Nat) :=
  (dedupF ks).map (fun k => (k, cntOf ks k))

theorem bump_countsSpec {α : Type} [DecidableEq α] (l : List α) (k : α) :
    bump (countsSpec l) k = countsSpec (l ++ [k]) := by
  have hfst : (countsSpec l).map Prod.fst = dedupF l := by
    simp [countsSpec, List.map_map, Function.comp_def]
  rw [bump, hfst]
  by_cases hk : k ∈ l
  · rw [if_pos (mem_dedupF.mpr hk)]
    rw [countsSpec, countsSpec, dedupF_append_singleton, if_pos hk, List.map_map]
    refine List.map_congr_left (fun a ha => ?_)
    by_cases hak : a = k
    · subst hak
      simp [Function.comp_def, cntOf_append, cntOf_singleton]
    · simp [Function.comp_def, hak, cntOf_append,
        cntOf_singleton, if_neg (fun h : k = a => hak h.symm)]
  · rw [if_neg (fun h => hk (mem_dedupF.mp h))]
    rw [countsSpec, countsSpec, dedupF_append_singleton, if_neg hk, List.map_append,
      List.map_cons, List.map_nil]
    congr 1
    · refine List.map_congr_left (fun a ha => ?_)
      have hak : a ≠ k := fun h => hk (h ▸ mem_dedupF.mp ha)
      simp [cntOf_append, cntOf_singleton, if_neg (fun h : k = a => hak h.symm)]
    · simp [cntOf_append, cntOf_singleton, cntOf_eq_zero hk]

theorem buildCountsBy_eq {α β : Type} [DecidableEq β] (f : α → Option β) (xs : List α) :
    buildCountsBy f xs = countsSpec (xs.filterMap f) := by
  suffices h : ∀ (seen : List β),
      xs.foldl (bumpStep f) (countsSpec seen) = countsSpec (seen ++ xs.filterMap f) by
    simpa [buildCountsBy, countsSpec, dedupF] using h []
  induction xs with
  | nil => intro seen; simp
  | cons x xs ih =>
    intro seen
    simp only [List.foldl_cons]
    cases hfx : f x with
    | none =>
      simp only [bumpStep, hfx, List.filterMap_cons_none hfx]
      exact ih seen
    | some k =>
      simp only [bumpStep, hfx, List.filterMap_cons_some hfx, bump_countsSpec]
      rw [ih (seen ++ [k])]
      simp

/-! ### Events and timestamps (`soc_rules.py`) -/

/-- The dynamic value found under the `"ts"` key of an event dict:
absent/`None`/falsy, an actual `datetime` object, or any other value
(coerced with `str(...)` before ISO-8601 parsing). -/
inductive PyTs where
  | null : PyTs
  | dt (t : Int) : PyTs
  | str (s : String) : PyTs
deriving DecidableEq, Repr

/-- A normalized event record as consumed by the SOC rule engine
(`soc_rules.py` docstring): only the keys the engine reads are kept.
`Option` fields model absent-or-`None` dict entries. -/
structure Event where
  ts : PyTs := .null
  source : Option String := none
  event_type : Option String := none
  user : Option String := none
  ip : Option String := none
  hostname : Option String := none
  action : Option String := none
deriving DecidableEq, Repr

/-- `SocRules._parse_ts` (lines 196-206): falsy values parse to `None`,
`datetime` objects pass through, anything else is `str(...)`-coerced,
has `"Z"` replaced by `"+00:00"` and is handed to
`datetime.fromisoformat`. `parseIso` is the environment's model of
`fromisoformat(...).replace(tzinfo=None)`, returning `none` when the
library raises. -/
def parse_ts (parseIso : String → Option Int) : PyTs → Option Int
  | .null => none
  | .dt t => some t
  | .str s => if s = "" then none else parseIso (s.replace "Z" "+00:00")

/-- An event of the engine's working set: the original dict plus the
`"_ts"` key added at lines 66-73. -/
structure NormEvent where
  ev : Event
  ts : Int
deriving DecidableEq, Repr

/-- The timestamp the engine assigns an event: its parsed timestamp, or
"now" when missing/unparseable (line 70). -/
def resolvedTs (parseIso : String → Option Int) (now : Int) (e : Event) : Int :=
  (parse_ts parseIso e.ts).getD now

/-- Lines 64-73 of `soc_rules.py`: normalize timestamps and keep only
events within the trailing window (`ts >= now - timedelta(minutes=w)`).
This list is the working set handed to every detection rule. -/
def normWindow (parseIso : String → Option Int) (now window_minutes : Int)
    (events : List Event) : List NormEvent :=
  events.filterMap (fun e =>
    let t := resolvedTs parseIso now e
    if now - window_minutes * 60 ≤ t then some ⟨e, t⟩ else none)

/-! ### Detection rules -/

/-- `event_type in ("auth_failed", "login_failed", "failed_login")`. -/
def isAuthFail (e : Event) : Bool :=
  match e.event_type with
  | some t => t == "auth_failed" || t == "login_failed" || t == "failed_login"
  | none => false

/-- The `(user, ip)` key of a failure event, with the sentinel defaults
of lines 105-106; `none` when the event is not an authentication
failure. -/
def failKey (e : NormEvent) : Option (String × String) :=
  if isAuthFail e.ev then
    some (pyOrStr e.ev.user "unknown_user", pyOrStr e.ev.ip "unknown_ip")
  else none

/-- The stream of `(user, ip)` keys the bruteforce counter sees. -/
def failKeys (events : List NormEvent) : List (String × String) :=
  events.filterMap failKey

/-- The finding literal of `_detect_bruteforce_user_ip` (lines 112-118). -/
def bruteforceFinding (user ip : String) (c : Nat) : Finding :=
  { title := "Potential brute force against user " ++ user
    severity := "high"
    category := "soc.auth"
    evidence := toString c ++ " failed login attempts for user=" ++ user ++
      " from ip=" ++ ip ++ " within the monitoring window."
    remediation := "Block/limit the source IP, enforce MFA, review account lockout policy, and investigate the user’s account activity." }

/-- `SocRules._detect_bruteforce_user_ip` (lines 98-119): count failure
events per `(user, ip)` in a `defaultdict(int)`, then emit one
high-severity finding per key at or above the threshold. -/
def detect_bruteforce_user_ip (events : List NormEvent) (threshold : Int) :
    List Finding :=
  let counts := buildCountsBy failKey events
  counts.filterMap (fun kc =>
    if (kc.2 : Int) ≥ threshold then some (bruteforceFinding kc.1.1 kc.1.2 kc.2)
    else none)

/-- The `ip` key of a failure event for the global rule (line 131). -/
def failIpKey (e : NormEvent) : Option String :=
  if isAuthFail e.ev then some (pyOrStr e.ev.ip "unknown_ip") else none

/-- The `(ip, user)` pairs feeding `users_by_ip` (lines 131-133). -/
def failIpUser (e : NormEvent) : Option (String × String) :=
  if isAuthFail e.ev then
    some (pyOrStr e.ev.ip "unknown_ip", pyOrStr e.ev.user "unknown_user")
  else none

/-- `users_by_ip[ip].add(user)` on a `defaultdict(set)` represented as an
insertion-ordered association list of duplicate-free lists (the rule
consumes only the set's cardinality). -/
def addU (m : List (String × List String)) (ip user : String) :
    List (String × List String) :=
  if ip ∈ m.map Prod.fst then
    m.map (fun p => if p.1 = ip then (p.1, if user ∈ p.2 then p.2 else p.2 ++ [user]) else p)
  else m ++ [(ip, [user])]

/-- The loop of lines 128-133: one pass over the events updating both the
per-ip counter and the per-ip user set. -/
def sprayStep (st : List (String × Nat) × List (String × List String))
    (e : NormEvent) : List (String × Nat) × List (String × List String) :=
  match failIpUser e with
  | some p => (bump st.1 p.1, addU st.2 p.1 p.2)
  | none => st

/-- Modelled from the spec: the `evidence` string literal of the
password-spray finding is cut off mid-token at line 142 of the source
file, so its content follows §4.4 rule 5 of the spec (it reports the
failure count, the source ip and the distinct-user count). Every other
field of the literal is present in the source (lines 138-144). -/
def sprayFinding (ip : String) (c : Nat) (users : Nat) : Finding :=
  { title := "Potential password spraying activity"
    severity := "high"
    category := "soc.auth"
    evidence := toString c ++ " failed login attempts from ip=" ++ ip ++
      " across " ++ toString users ++ " distinct users within the monitoring window."
    remediation := "Block/limit the IP, enforce MFA, enable conditional access, and review authentication logs for successful logins from the same IP." }

/-- `SocRules._detect_bruteforce_global_ip` (lines 121-145): count
failures per ip and track the distinct users targeted from each ip; emit
one high-severity finding per ip whose count meets the threshold and
which targeted at least 3 distinct users. -/
def detect_bruteforce_global_ip (events : List NormEvent) (threshold : Int) :
    List Finding :=
  let st := events.foldl sprayStep ([], [])
  st.1.filterMap (fun ic =>
    let users := (((st.2.find? (fun p => p.1 = ic.1)).map Prod.snd).getD []).length
    if (ic.2 : Int) ≥ threshold ∧ 3 ≤ users then
      some (sprayFinding ic.1 ic.2 users)
    else none)

/-! ### Characterizing the spray rule's two dictionaries -/

/-- Values stored under key `ip` by a stream of `(ip, user)` pairs. -/
def valuesFor (ps : List (String × String)) (ip : String) : List String :=
  (ps.filter (fun q => q.1 = ip)).map Prod.snd

/-- Declarative description of the finished `users_by_ip` table: one entry
per distinct ip in first-occurrence order, holding the distinct users seen
from that ip. -/
def usersSpec (ps : List (String × String)) : List (String × List String) :=
  (dedupF (ps.map Prod.fst)).map (fun ip => (ip, dedupF (valuesFor ps ip)))

theorem valuesFor_append_singleton (ps : List (String × String)) (x : String × String)
    (ip : String) :
    valuesFor (ps ++ [x]) ip = valuesFor ps ip ++ if x.1 = ip then [x.2] else [] := by
  simp only [valuesFor, List.filter_append, List.map_append]
  congr 1
  by_cases h : x.1 = ip
  · simp [List.filter, h]
  · simp [List.filter, h]

theorem addU_usersSpec (ps : List (String × String)) (ip user : String) :
    addU (usersSpec ps) ip user = usersSpec (ps ++ [(ip, user)]) := by
  have hfst : (usersSpec ps).map Prod.fst = dedupF (ps.map Prod.fst) := by
    simp [usersSpec, List.map_map, Function.comp_def]
  have hkeys : (ps ++ [(ip, user)]).map Prod.fst = ps.map Prod.fst ++ [ip] := by
    simp
  rw [addU, hfst]
  by_cases hip : ip ∈ ps.map Prod.fst
  · rw [if_pos (mem_dedupF.mpr hip)]
    rw [usersSpec, usersSpec, hkeys, dedupF_append_singleton, if_pos hip, List.map_map]
    refine List.map_congr_left (fun a ha => ?_)
    simp only [Function.comp_def]
    by_cases hai : a = ip
    · subst hai
      rw [if_pos rfl, valuesFor_append_singleton, if_pos rfl,
        dedupF_append_singleton]
      by_cases hu : user ∈ valuesFor ps a
      · rw [if_pos hu, if_pos (mem_dedupF.mpr hu)]
      · rw [if_neg hu, if_neg (fun h => hu (mem_dedupF.mp h))]
    · rw [if_neg hai, valuesFor_append_singleton,
        if_neg (fun h : (ip, user).1 = a => hai h.symm), List.append_nil]
  · rw [if_neg (fun h => hip (mem_dedupF.mp h))]
    rw [usersSpec, usersSpec, hkeys, dedupF_append_singleton, if_neg hip,
      List.map_append, List.map_cons, List.map_nil]
    congr 1
    · refine List.map_congr_left (fun a ha => ?_)
      have hai : a ≠ ip := fun h => hip (h ▸ mem_dedupF.mp ha)
      rw [valuesFor_append_singleton,
        if_neg (fun h : (ip, user).1 = a => hai h.symm), List.append_nil]
    · have hnil : valuesFor ps ip = [] := by
        simp only [valuesFor, List.map_eq_nil_iff]
        rw [List.filter_eq_nil_iff]
        intro q hq hdec
        exact hip (List.mem_map.mpr ⟨q, hq, by simpa using hdec⟩)
      rw [valuesFor_append_singleton, if_pos rfl, hnil]
      simp [dedupF]

/-- One iteration of the user-table loop: add the `(ip, user)` pair of
`e`, if any. -/
def addUStep (m : List (String × List String)) (e : NormEvent) :
    List (String × List String) :=
  match failIpUser e with | some p => addU m p.1 p.2 | none => m

/-- The `users_by_ip` table built by the loop of lines 128-133. -/
def buildUsersBy (xs : List NormEvent) : List (String × List String) :=
  xs.foldl addUStep []

theorem buildUsersBy_eq (xs : List NormEvent) :
    buildUsersBy xs = usersSpec (xs.filterMap failIpUser) := by
  suffices h : ∀ (seen : List (String × String)),
      xs.foldl addUStep (usersSpec seen) = usersSpec (seen ++ xs.filterMap failIpUser) by
    simpa [buildUsersBy, usersSpec, dedupF] using h []
  induction xs with
  | nil => intro seen; simp
  | cons x xs ih =>
    intro seen
    simp only [List.foldl_cons]
    cases hfx : failIpUser x with
    | none =>
      simp only [addUStep, hfx, List.filterMap_cons_none hfx]
      exact ih seen
    | some p =>
      simp only [addUStep, hfx, List.filterMap_cons_some hfx, addU_usersSpec]
      rw [show (seen ++ [(p.1, p.2)] : List (String × String)) = seen ++ [p] by simp]
      rw [ih (seen ++ [p])]
      simp

theorem sprayFold_fst (xs : List NormEvent) (a : List (String × Nat))
    (b : List (String × List String)) :
    (xs.foldl sprayStep (a, b)).1 = xs.foldl (bumpStep failIpKey) a := by
  induction xs generalizing a b with
  | nil => rfl
  | cons x xs ih =>
    simp only [List.foldl_cons, sprayStep, bumpStep]
    have hkey : failIpKey x = (failIpUser x).map Prod.fst := by
      simp only [failIpKey, failIpUser]
      by_cases h : isAuthFail x.ev
      · simp [h]
      · simp [h]
    cases hfx : failIpUser x with
    | none => simp only [hfx, hkey, Option.map_none']; exact ih a b
    | some p => simp only [hfx, hkey, Option.map_some']; exact ih (bump a p.1) (addU b p.1 p.2)

theorem sprayFold_snd (xs : List NormEvent) (a : List (String × Nat))
    (b : List (String × List String)) :
    (xs.foldl sprayStep (a, b)).2 = xs.foldl addUStep b := by
  induction xs generalizing a b with
  | nil => rfl
  | cons x xs ih =>
    simp only [List.foldl_cons, sprayStep, addUStep]
    cases hfx : failIpUser x with
    | none => simp only [hfx]; exact ih a b
    | some p => simp only [hfx]; exact ih (bump a p.1) (addU b p.1 p.2)

theorem find?_usersSpec (ps : List (String × String)) (ip : String)
    (h : ip ∈ ps.map Prod.fst) :
    (usersSpec ps).find? (fun p => p.1 = ip) = some (ip, dedupF (valuesFor ps ip)) := by
  have : ∀ (ks : List String), ip ∈ ks →
      ((ks.map (fun k => (k, dedupF (valuesFor ps k)))).find? (fun p => p.1 = ip)) =
        some (ip, dedupF (valuesFor ps ip)) := by
    intro ks hks
    induction ks with
    | nil => cases hks
    | cons k ks ih =>
      by_cases hk : k = ip
      · subst hk
        simp [List.find?]
      · have hmem : ip ∈ ks := by
          rcases List.mem_cons.mp hks with h' | h'
          · exact absurd h'.symm hk
          · exact h'
        simp only [List.map_cons, List.find?]
        have : (decide ((k, dedupF (valuesFor ps k)).1 = ip)) = false := by
          simpa using hk
        rw [this]
        exact ih hmem
  exact this (dedupF (ps.map Prod.fst)) (mem_dedupF.mpr h)

/-! ### The remaining rules and `SocRules.run` -/

/-- Rendering of an event's `ts` value inside `_event_brief`'s f-string
(`e.get("ts", "na")`): `"na"` for a missing key, the value otherwise. -/
def pyTsRepr : PyTs → String
  | .null => "na"
  | .dt t => toString t
  | .str s => s

/-- `SocRules._event_brief` (lines 208-213). -/
def event_brief (e : Event) : String :=
  pyTsRepr e.ts ++ ":" ++ (e.event_type.getD "na") ++ ":" ++
    (e.user.getD "na") ++ "@" ++ (e.ip.getD "na")

/-- Python `repr` of a list of strings, as an f-string renders `{examples}`. -/
def pyListRepr (xs : List String) : String :=
  "[" ++ String.intercalate ", " (xs.map (fun s => "\x27" ++ s ++ "\x27")) ++ "]"

/-- `event_type in ("admin_action", "privileged_action")` (line 155). -/
def isAdminAction (e : Event) : Bool :=
  match e.event_type with
  | some t => t == "admin_action" || t == "privileged_action"
  | none => false

/-- `SocRules._detect_suspicious_admin_activity` (lines 147-168): count
privileged events, remember the first 5 briefs, and emit one
medium-severity finding when the count meets the threshold. -/
def detect_suspicious_admin_activity (events : List NormEvent) (threshold : Int) :
    List Finding :=
  let hits := events.filter (fun e => isAdminAction e.ev)
  let admin_actions := hits.length
  let examples := (hits.map (fun e => event_brief e.ev)).take 5
  if (admin_actions : Int) ≥ threshold then
    [{ title := "Burst of privileged/admin actions detected"
       severity := "medium"
       category := "soc.privilege"
       evidence := toString admin_actions ++
         " privileged actions within the monitoring window. Examples: " ++
         pyListRepr examples
       remediation := "Confirm changes are authorized. Review who performed the actions, validate MFA, and restrict admin roles to least privilege." }]
  else []

/-- Modelled from the Python stdlib: ASCII lowercasing, standing in for
`str.lower` (the tokens the rule compares against are ASCII). -/
def asciiLowerChar (c : Char) : Char :=
  if 65 ≤ c.toNat ∧ c.toNat ≤ 90 then Char.ofNat (c.toNat + 32) else c

/-- ASCII `str.lower`. -/
def asciiLower (s : String) : String := String.mk (s.data.map asciiLowerChar)

/-- `p` is a prefix of `l` (character lists). -/
def isPrefOf : List Char → List Char → Bool
  | [], _ => true
  | _ :: _, [] => false
  | a :: as, b :: bs => a == b && isPrefOf as bs

/-- `p` occurs contiguously inside `l`: Python's `p in s` on strings. -/
def isSubList (p : List Char) : List Char → Bool
  | [] => isPrefOf p []
  | b :: bs => isPrefOf p (b :: bs) || isSubList p bs

/-- Python `pat in s` for strings. -/
def strContains (s pat : String) : Bool := isSubList pat.data s.data

/-- The match condition of `_detect_new_admin_creation` (line 178), with
Python's precedence: `et in (...) or ("admin" in action and ("add" in
action or "grant" in action))`. -/
def isNewAdminEvent (e : Event) : Bool :=
  let et := asciiLower (pyOrStr e.event_type "")
  let action := asciiLower (pyOrStr e.action "")
  (et == "user_role_changed" || et == "admin_created" || et == "privilege_granted") ||
    (strContains action "admin" && (strContains action "add" || strContains action "grant"))

/-- `SocRules._detect_new_admin_creation` (lines 170-188). -/
def detect_new_admin_creation (events : List NormEvent) : List Finding :=
  let hits := events.filter (fun e => isNewAdminEvent e.ev)
  let briefs := hits.map (fun e => event_brief e.ev)
  if briefs.isEmpty then []
  else
    [{ title := "New admin/privilege grant event detected"
       severity := "high"
       category := "soc.privilege"
       evidence := "Detected potential privilege escalation events. Examples: " ++
         pyListRepr (briefs.take 5)
       remediation := "Validate business justification, confirm change control ticket, review account security, and revert unauthorized privilege changes immediately." }]

/-- The finding returned when no events are provided (lines 37-46). -/
def noEventsFinding : Finding :=
  { title := "SOC ingest: no events provided"
    severity := "info"
    category := "soc"
    evidence := "No events were passed to the SOC rules engine. Provide params[\x27events\x27] as a list of normalized events."
    remediation := "Set up a log ingestion route/connector (M365, Google Workspace, firewall logs, Wazuh agent)." }

/-- The fallback summary finding of lines 84-90. -/
def socSummaryFinding (processed : Nat) (window_minutes : Int) (asset_value : String) :
    Finding :=
  { title := "SOC window summary: no high-signal alerts"
    severity := "info"
    category := "soc"
    evidence := "Processed " ++ toString processed ++ " events within the last " ++
      toString window_minutes ++ " minutes from source=" ++ asset_value ++
      ". No alerts fired."
    remediation := "Continue monitoring. Consider enabling more log sources for better coverage (M365, firewall, endpoint)." }

/-- The value found under `params["events"]`: either not a list, or a
list of event dicts. Absence (or `None`) is the enclosing `Option`. -/
inductive EventsVal where
  | notList : EventsVal
  | list (es : List Event) : EventsVal
deriving DecidableEq

/-- The `"thresholds"` dict of `params` (lines 49-52). -/
structure Thresholds where
  failed_login_per_user_ip : Option Int := none
  failed_login_global_per_ip : Option Int := none
  admin_actions_per_window : Option Int := none
deriving DecidableEq

/-- The `params` dict as `SocRules.run` reads it. -/
structure SocParams where
  events : Option EventsVal := none
  window_minutes : Option Int := none
  thresholds : Option Thresholds := none
  artifacts_dir : Option String := none
  run_id : Option String := none
deriving DecidableEq

/-- Modelled from the Python stdlib: an injective stand-in for
`datetime.utcnow().strftime("%Y%m%dT%H%M%SZ")`, the run id derived from
the current time when the caller supplies none. -/
def utcStamp (now : Int) : String := toString now

/-- The three effective thresholds of lines 50-52. -/
def socThresholds (p : SocParams) : Int × Int × Int :=
  let th := p.thresholds.getD {}
  (pyOrInt th.failed_login_per_user_ip 10,
   pyOrInt th.failed_login_global_per_ip 30,
   pyOrInt th.admin_actions_per_window 3)

/-- The artifact file path of lines 55-59:
`os.path.join(artifacts_root, f"soc_events_{run_id}.json")`. -/
def socArtifactPath (p : SocParams) (now : Int) : String :=
  pyOrStr p.artifacts_dir "/tmp/threatsense_artifacts" ++ "/soc_events_" ++
    pyOrStr p.run_id (utcStamp now) ++ ".json"

/-- Lines 76-81: the concatenated output of the five detection rules, in
source order. `travel` stands for `_detect_impossible_travel_hint`,
whose body is missing from the source file (only a dangling fragment of
its finding literal remains at lines 189-191); the spec calls it a
best-effort heuristic, so the engine is parameterized by it and every
theorem below holds for an arbitrary implementation. -/
def socRuleFindings (travel : List NormEvent → List Finding)
    (norm_events : List NormEvent) (thf thg tha : Int) : List Finding :=
  detect_bruteforce_user_ip norm_events thf ++
    detect_bruteforce_global_ip norm_events thg ++
    detect_suspicious_admin_activity norm_events tha ++
    detect_new_admin_creation norm_events ++
    travel norm_events

/-- A `SocRules.run` invocation's observable outcome: the returned
`PluginResult` plus the artifact files it wrote (path and JSON-serialized
content, here the event list itself). -/
structure SocOutcome where
  result : PluginResult
  writes : List (String × List Event)
deriving DecidableEq

/-- `SocRules.run` (lines 34-92). `parseIso` and `now` model
`datetime.fromisoformat` and `datetime.utcnow()`; `travel` models the
missing `_detect_impossible_travel_hint` (see `socRuleFindings`).
The early return fires when `params["events"]` is absent, not a list, or
empty; otherwise the raw batch is dumped to the artifact file, the
working set is `normWindow`, the five rules run in order, and an
empty alert list is replaced by the single summary finding. -/
def SocRules.run (travel : List NormEvent → List Finding)
    (parseIso : String → Option Int) (now : Int)
    (asset_kind asset_value : String) (p : SocParams) : SocOutcome :=
  match p.events with
  | some (.list (e :: es)) =>
    let events := e :: es
    let window_minutes := pyOrInt p.window_minutes 15
    let th := socThresholds p
    let artifact_path := socArtifactPath p now
    let norm_events := normWindow parseIso now window_minutes events
    let findings := socRuleFindings travel norm_events th.1 th.2.1 th.2.2
    let findings :=
      if findings.isEmpty then
        [socSummaryFinding norm_events.length window_minutes asset_value]
      else findings
    { result := { findings := findings, artifact_path := some artifact_path }
      writes := [(artifact_path, events)] }
  | _ =>
    { result := { findings := [noEventsFinding], artifact_path := none }
      writes := [] }

/-! ### The bounded external process adapter (`nuclei_scan.py`) -/

/-- How the `subprocess.run` call of lines 98-104 ends: normal return,
`TimeoutExpired`, or any other exception (type name and message). -/
inductive SubprocResult where
  | completed : SubprocResult
  | timedOut : SubprocResult
  | raised (exType exMsg : String) : SubprocResult
deriving DecidableEq

/-- The adapter's execution environment: binary resolvability
(`_nuclei_exists`, i.e. `shutil.which("nuclei")`), `os.path.isdir` for
the templates directory, `os.path.exists` for the artifact path after the
attempt, and the subprocess outcome. -/
structure NucleiEnv where
  nucleiOnPath : Bool
  templatesDirIsDir : String → Bool
  outPathExists : String → Bool
  subproc : SubprocResult

/-- The `params` dict as `NucleiScan.run` reads it (lines 48-95). -/
structure NucleiParams where
  target_url : Option String := none
  severities : Option (List String) := none
  tags : Option String := none
  exclude_tags : Option String := none
  rate_limit : Option Int := none
  timeout : Option Int := none
  retries : Option Int := none
  templates_dir : Option String := none
  headless : Option Bool := none
  artifacts_dir : Option String := none
  run_id : Option String := none
  wall_clock_timeout : Option Int := none

/-- A `NucleiScan.run` invocation's observable outcome: the returned
`PluginResult` plus every subprocess command line it spawned. -/
structure NucleiOutcome where
  result : PluginResult
  procCalls : List (List String)

/-- Modelled from the spec: `NucleiScan._coerce_target` is called at
line 48 but its definition is missing from the (truncated) source file.
Spec §4.3 step 2: prefer an explicit `target_url` override when supplied;
otherwise coerce a bare domain/IP asset to a URL form. -/
def coerceTarget (asset_kind asset_value : String) (target_url : Option String) : String :=
  pyOrStr target_url
    (if asset_kind = "domain" ∨ asset_kind = "ip" then "http://" ++ asset_value
     else asset_value)

/-- The artifact path of lines 60-64:
`os.path.join(artifacts_root, f"nuclei_{run_id}.jsonl")`. -/
def nucleiOutPath (p : NucleiParams) (now : Int) : String :=
  pyOrStr p.artifacts_dir "/tmp/threatsense_artifacts" ++ "/nuclei_" ++
    pyOrStr p.run_id (utcStamp now) ++ ".jsonl"

/-- The nuclei command line built at lines 67-91. -/
def nucleiCmd (env : NucleiEnv) (p : NucleiParams) (now : Int) (target : String) :
    List String :=
  let severities := pyOrList p.severities ["medium", "high", "critical"]
  let tags := p.tags.getD ""
  let exclude_tags := pyOrStr p.exclude_tags "dos,fuzz"
  let rate_limit := pyOrInt p.rate_limit 50
  let timeout := pyOrInt p.timeout 10
  let retries := pyOrInt p.retries 1
  let templates_dir := pyOrStr p.templates_dir "/opt/nuclei-templates"
  let headless := pyOrBool p.headless
  ["nuclei", "-u", target, "-jsonl", "-o", nucleiOutPath p now,
   "-severity", String.intercalate "," severities,
   "-rl", toString rate_limit, "-timeout", toString timeout,
   "-retries", toString retries, "-silent"] ++
    (if templates_dir ≠ "" ∧ env.templatesDirIsDir templates_dir
     then ["-t", templates_dir] else []) ++
    (if tags ≠ "" then ["-tags", tags] else []) ++
    (if exclude_tags ≠ "" then ["-exclude-tags", exclude_tags] else []) ++
    (if headless then ["-headless"] else [])

/-- The missing-binary finding of lines 38-44. -/
def nucleiMissingFinding : Finding :=
  { title := "Nuclei binary not installed in worker image"
    severity := "high"
    category := "scanner_error"
    evidence := "The \x27nuclei\x27 executable was not found on PATH. Install nuclei in apps/worker/Dockerfile."
    remediation := "Install ProjectDiscovery nuclei and templates in the worker container." }

/-- The timeout finding of lines 107-113. -/
def nucleiTimeoutFinding (wall_clock_timeout : Int) (target : String) : Finding :=
  { title := "Nuclei scan timed out"
    severity := "medium"
    category := "scanner_error"
    evidence := "Scan exceeded wall_clock_timeout=" ++ toString wall_clock_timeout ++
      "s for target=" ++ target ++ "."
    remediation := "Reduce scope, lower templates, or increase wall_clock_timeout cautiously." }

/-- The execution-error finding of lines 118-124. -/
def nucleiExecErrorFinding (exType exMsg : String) : Finding :=
  { title := "Nuclei scan execution error"
    severity := "high"
    category := "scanner_error"
    evidence := "Exception while running nuclei: " ++ exType ++ ": " ++ exMsg
    remediation := "Check worker container logs and nuclei installation." }

/-- Modelled from the spec: the source file is truncated right after the
`except` blocks, so the return statement for a normally completed
subprocess is missing. Spec §4.3 step 7: on normal exit report success
with the artifact path (the exit code is not authoritative); parsing the
artifact into findings is out of scope, so the findings list is empty. -/
def nucleiSuccessResult (out_path : String) : PluginResult :=
  { findings := [], artifact_path := some out_path }

/-- `NucleiScan.run` (lines 34-127 plus the spec-modelled success
return): precondition-check the binary, build the command, run it
bounded by the wall-clock timeout, and map each outcome to a
`PluginResult`. -/
def NucleiScan.run (env : NucleiEnv) (now : Int)
    (asset_kind asset_value : String) (p : NucleiParams) : NucleiOutcome :=
  if !env.nucleiOnPath then
    { result := { findings := [nucleiMissingFinding], artifact_path := none }
      procCalls := [] }
  else
    let target := coerceTarget asset_kind asset_value p.target_url
    let out_path := nucleiOutPath p now
    let cmd := nucleiCmd env p now target
    let wall_clock_timeout := pyOrInt p.wall_clock_timeout 600
    match env.subproc with
    | .timedOut =>
      { result := { findings := [nucleiTimeoutFinding wall_clock_timeout target]
                    artifact_path := if env.outPathExists out_path then some out_path else none }
        procCalls := [cmd] }
    | .raised exType exMsg =>
      { result := { findings := [nucleiExecErrorFinding exType exMsg]
                    artifact_path := if env.outPathExists out_path then some out_path else none }
        procCalls := [cmd] }
    | .completed =>
      { result := nucleiSuccessResult out_path
        procCalls := [cmd] }

/-! ### The scan orchestrator (`scan_task.py`) -/

/-- The `ScanRun` row (model mirror at lines 112-126 of
`scan_task.py`). -/
structure ScanRun where
  id : String
  tenant_id : String := ""
  asset_id : String
  scan_type : String := ""
  status : String
  started_at : Option Int := none
  finished_at : Option Int := none
  requested_by_user_id : String := ""
  approved_by_user_id : Option String := none
  requires_approval : Bool := false
  plugin : String := ""
  parameters_json : String := ""
  artifact_path : Option String := none
  error_message : Option String := none
deriving DecidableEq, Repr

/-- The `Asset` row (lines 128-133). -/
structure Asset where
  id : String
  tenant_id : String := ""
  kind : String := ""
  value : String := ""
  verified : Bool := false
deriving DecidableEq, Repr

/-- The `Finding` row (lines 135-146). -/
structure FindingRow where
  id : Option String := none
  tenant_id : String
  scan_run_id : String
  asset_id : String
  title : String
  severity : String
  category : String
  evidence : String
  remediation : String
  cve : Option String := none
  cvss : Option Int := none
deriving DecidableEq, Repr

/-- The persistent store as the orchestrator touches it. -/
structure DB where
  scans : List ScanRun
  assets : List Asset
  findings : List FindingRow
deriving DecidableEq, Repr

/-- `select(ScanRun).where(ScanRun.id == scan_id).first()`. -/
def findScan (db : DB) (scan_id : String) : Option ScanRun :=
  db.scans.find? (fun s => s.id = scan_id)

/-- `select(Asset).where(Asset.id == scan.asset_id).first()`. -/
def findAsset (db : DB) (asset_id : String) : Option Asset :=
  db.assets.find? (fun a => a.id = asset_id)

/-- `session.add(scan); session.commit()`: persist an updated scan row. -/
def setScan (db : DB) (s : ScanRun) : DB :=
  { db with scans := db.scans.map (fun t => if t.id = s.id then s else t) }

/-- `run_scan` (`scan_task.py` lines 20-106). The `try` block of lines
44-106 (plugin dispatch, event fetching, finding persistence and the
terminal transition) is abstracted as `body`, invoked with the store
after the `running` transition was committed, the updated scan and the
asset; every claim proved below concerns only the control flow before
`body` is reached, so it holds for the actual block in particular.
Faithful to the source order: (1) missing scan → return; (2) missing
asset → mark `failed` with "Asset not found" and return; (3) status not
in `{queued, running}` → return; (4) commit `running` + `started_at`,
then run the body. -/
def run_scan (body : DB → ScanRun → Asset → DB) (now : Int)
    (db : DB) (scan_id : String) : DB :=
  match findScan db scan_id with
  | none => db
  | some scan =>
    match findAsset db scan.asset_id with
    | none =>
      setScan db { scan with status := "failed", error_message := some "Asset not found" }
    | some asset =>
      if scan.status ≠ "queued" ∧ scan.status ≠ "running" then db
      else
        let scan1 := { scan with status := "running", started_at := some now }
        body (setScan db scan1) scan1 asset

/-! ### Claim-side characterizations of the two bruteforce rules -/

theorem failIpKeys_eq (events : List NormEvent) :
    events.filterMap failIpKey = (events.filterMap failIpUser).map Prod.fst := by
  rw [List.map_filterMap]
  refine List.filterMap_congr (fun e he => ?_)
  simp only [failIpKey, failIpUser]
  by_cases h : isAuthFail e.ev
  · simp [h]
  · simp [h]

/-- Follows the words of the claim: one high-severity finding per distinct
`(user, ip)` failure pair (in first-occurrence order) whose failure count
reaches the threshold, and nothing for any pair below it. -/
def bruteforceUserIpSpec (events : List NormEvent) (threshold : Int) : List Finding :=
  (dedupF (failKeys events)).filterMap (fun k =>
    if (cntOf (failKeys events) k : Int) ≥ threshold then
      some (bruteforceFinding k.1 k.2 (cntOf (failKeys events) k))
    else none)

/-- A batch of `n` identical in-window authentication failures for the
pair `(u, ip)`. -/
def failBatch (n : Nat) (u ip : String) : List NormEvent :=
  List.replicate n ⟨{ event_type := some "auth_failed", user := some u, ip := some ip }, 0⟩

/-- Claim C4: for every in-window event batch and threshold, the
bruteforce rule emits exactly one high-severity finding per distinct
`(user, ip)` pair (with `unknown_user`/`unknown_ip` defaults) whose
failure count is at least the threshold, and none for pairs below it;
in particular 10 failures for one pair with threshold 10 yield exactly
the one finding and 9 failures yield none. -/
theorem detect_bruteforce_user_ip_characterization (events : List NormEvent)
    (threshold : Int) :
    detect_bruteforce_user_ip events threshold = bruteforceUserIpSpec events threshold ∧
    (dedupF (failKeys events)).Nodup ∧
    detect_bruteforce_user_ip (failBatch 10 "u" "1.2.3.4") 10 =
      [bruteforceFinding "u" "1.2.3.4" 10] ∧
    detect_bruteforce_user_ip (failBatch 9 "u" "1.2.3.4") 10 = [] := by
  refine ⟨?_, nodup_dedupF _, by decide, by decide⟩
  simp only [detect_bruteforce_user_ip, buildCountsBy_eq, countsSpec,
    List.filterMap_map, bruteforceUserIpSpec]
  refine List.filterMap_congr (fun k hk => ?_)
  simp only [Function.comp_def, failKeys]

/-- Follows the words of the claim: one high-severity finding per distinct
failure-source ip (in first-occurrence order) iff its failure count
reaches the global threshold AND at least 3 distinct users were targeted
from it. -/
def sprayGlobalSpec (events : List NormEvent) (threshold : Int) : List Finding :=
  (dedupF (events.filterMap failIpKey)).filterMap (fun ip =>
    if (cntOf (events.filterMap failIpKey) ip : Int) ≥ threshold ∧
        3 ≤ (dedupF (valuesFor (events.filterMap failIpUser) ip)).length then
      some (sprayFinding ip (cntOf (events.filterMap failIpKey) ip)
        (dedupF (valuesFor (events.filterMap failIpUser) ip)).length)
    else none)

/-- 30 failures from one ip spread over 3 distinct users. -/
def spray30x3 : List NormEvent :=
  failBatch 10 "u1" "5.6.7.8" ++ failBatch 10 "u2" "5.6.7.8" ++ failBatch 10 "u3" "5.6.7.8"

/-- 30 failures from one ip spread over only 2 distinct users. -/
def spray30x2 : List NormEvent :=
  failBatch 15 "u1" "5.6.7.8" ++ failBatch 15 "u2" "5.6.7.8"

set_option maxRecDepth 4000 in
/-- Claim C5: the password-spray rule emits a high-severity finding for an
ip iff its failure count reaches the global threshold and at least 3
distinct users were targeted from it; in particular 30 failures across 3
users fire it and 30 failures across 2 users do not. -/
theorem detect_bruteforce_global_ip_characterization (events : List NormEvent)
    (threshold : Int) :
    detect_bruteforce_global_ip events threshold = sprayGlobalSpec events threshold ∧
    (dedupF (events.filterMap failIpKey)).Nodup ∧
    detect_bruteforce_global_ip spray30x3 30 = [sprayFinding "5.6.7.8" 30 3] ∧
    detect_bruteforce_global_ip spray30x2 30 = [] := by
  refine ⟨?_, nodup_dedupF _, by decide, by decide⟩
  have h1 : (events.foldl sprayStep ([], [])).1 =
      countsSpec (events.filterMap failIpKey) := by
    rw [sprayFold_fst]
    exact buildCountsBy_eq failIpKey events
  have h2 : (events.foldl sprayStep ([], [])).2 =
      usersSpec (events.filterMap failIpUser) := by
    rw [sprayFold_snd]
    exact buildUsersBy_eq events
  simp only [detect_bruteforce_global_ip, h1, h2, countsSpec, List.filterMap_map,
    sprayGlobalSpec]
  refine List.filterMap_congr (fun k hk => ?_)
  have hmem : k ∈ (events.filterMap failIpUser).map Prod.fst := by
    rw [← failIpKeys_eq]
    exact mem_dedupF.mp hk
  have hfind := find?_usersSpec (events.filterMap failIpUser) k hmem
  show (if ((cntOf (events.filterMap failIpKey) k : Int) ≥ threshold ∧
          3 ≤ ((((usersSpec (events.filterMap failIpUser)).find?
            (fun p => p.1 = k)).map Prod.snd).getD []).length) then
        some (sprayFinding k (cntOf (events.filterMap failIpKey) k)
          ((((usersSpec (events.filterMap failIpUser)).find?
            (fun p => p.1 = k)).map Prod.snd).getD []).length)
      else none) = _
  rw [hfind]
  exact rfl

/-! ### Concrete instantiations shared by the witnesses -/

/-- A `fromisoformat` model that rejects every string. -/
def pi0 : String → Option Int := fun _ => none

/-- An impossible-travel rule that never fires. -/
def travel0 : List NormEvent → List Finding := fun _ => []

/-- An event whose timestamp is 20 minutes (1200 s) in the past of `now = 0`. -/
def evOld : Event := { ts := .dt (-1200), event_type := some "auth_failed" }

/-- An event whose timestamp string is unparseable. -/
def evNoTs : Event := { ts := .str "not-a-timestamp" }

/-- Claim C6: an event whose parsed timestamp is strictly older than
`now - window_minutes` is excluded from the working set every detection
rule receives (`SocRules.run` hands exactly `normWindow`'s output to each
rule), while an event with a missing or unparseable timestamp is assigned
`now` and therefore included (for a nonnegative window). -/
theorem normWindow_filtering (parseIso : String → Option Int) (now w : Int)
    (evs : List Event) (e : Event) (t : Int) (hw : 0 ≤ w) :
    (parse_ts parseIso e.ts = some t → t < now - w * 60 →
      ∀ x ∈ normWindow parseIso now w evs, x.ev ≠ e) ∧
    (parse_ts parseIso e.ts = none → e ∈ evs →
      (⟨e, now⟩ : NormEvent) ∈ normWindow parseIso now w evs) := by
  constructor
  · intro hp hlt x hx heq
    rcases List.mem_filterMap.mp hx with ⟨a, ha, hfa⟩
    have hfa' : (if now - w * 60 ≤ resolvedTs parseIso now a then
        some (⟨a, resolvedTs parseIso now a⟩ : NormEvent) else none) = some x := hfa
    by_cases hc : now - w * 60 ≤ resolvedTs parseIso now a
    · rw [if_pos hc] at hfa'
      injection hfa' with h2
      subst h2
      have hae : a = e := heq
      subst hae
      have ht : resolvedTs parseIso now a = t := by
        rw [resolvedTs, hp]
        rfl
      rw [ht] at hc
      omega
    · rw [if_neg hc] at hfa'
      exact Option.noConfusion hfa'
  · intro hp he
    refine List.mem_filterMap.mpr ⟨e, he, ?_⟩
    show (if now - w * 60 ≤ resolvedTs parseIso now e then
        some (⟨e, resolvedTs parseIso now e⟩ : NormEvent) else none) = some ⟨e, now⟩
    have hr : resolvedTs parseIso now e = now := by
      rw [resolvedTs, hp]
      rfl
    rw [hr, if_pos (by omega : now - w * 60 ≤ now)]

/-- Witness for C6 at `now = 0`, `window_minutes = 15`: the 20-minute-old
event reaches no rule, the unparseable-timestamp event is in the working
set. -/
theorem normWindow_filtering_witness :
    ((0 : Int) ≤ 15) ∧
    (∀ x ∈ normWindow pi0 0 15 [evOld, evNoTs], x.ev ≠ evOld) ∧
    (⟨evNoTs, 0⟩ : NormEvent) ∈ normWindow pi0 0 15 [evOld, evNoTs] :=
  ⟨by decide,
   (normWindow_filtering pi0 0 15 [evOld, evNoTs] evOld (-1200) (by decide)).1
     (by decide) (by decide),
   (normWindow_filtering pi0 0 15 [evOld, evNoTs] evNoTs 0 (by decide)).2
     (by decide) (by decide)⟩

/-- The `params` dict of the shared witness batch: a single event. -/
def soc_p1 : SocParams := { events := some (.list [{}]) }

/-- Claim C3: for every value of the `events` parameter (absent, empty,
not a list, or any batch), `SocRules.run` returns a non-empty findings
list; and when no detection rule fires on the working set, the result is
exactly the single informational summary finding stating the
processed-event count and window. -/
theorem soc_run_findings_nonempty (travel : List NormEvent → List Finding)
    (parseIso : String → Option Int) (now : Int) (asset_kind asset_value : String)
    (p : SocParams) :
    (SocRules.run travel parseIso now asset_kind asset_value p).result.findings ≠ [] ∧
    (∀ e es, p.events = some (.list (e :: es)) →
      socRuleFindings travel
          (normWindow parseIso now (pyOrInt p.window_minutes 15) (e :: es))
          (socThresholds p).1 (socThresholds p).2.1 (socThresholds p).2.2 = [] →
      (SocRules.run travel parseIso now asset_kind asset_value p).result.findings =
        [socSummaryFinding
          (normWindow parseIso now (pyOrInt p.window_minutes 15) (e :: es)).length
          (pyOrInt p.window_minutes 15) asset_value]) ∧
    (socSummaryFinding 0 15 asset_value).severity = "info" := by
  refine ⟨?_, ?_, rfl⟩
  · cases hE : p.events with
    | none => simp [SocRules.run, hE]
    | some v =>
      cases v with
      | notList => simp [SocRules.run, hE]
      | list es =>
        cases es with
        | nil => simp [SocRules.run, hE]
        | cons e es =>
          simp only [SocRules.run, hE]
          split
          · simp
          · rename_i hne
            intro h
            rw [h] at hne
            simp at hne
  · intro e es hE hrules
    simp [SocRules.run, hE, hrules]

/-- Witness for C3: a one-event batch on which no rule fires yields
exactly the summary finding. -/
theorem soc_run_findings_nonempty_witness :
    (SocRules.run travel0 pi0 0 "log_source" "m365" soc_p1).result.findings ≠ [] ∧
    (SocRules.run travel0 pi0 0 "log_source" "m365" soc_p1).result.findings =
      [socSummaryFinding
        (normWindow pi0 0 (pyOrInt soc_p1.window_minutes 15) [{}]).length
        (pyOrInt soc_p1.window_minutes 15) "m365"] :=
  ⟨(soc_run_findings_nonempty travel0 pi0 0 "log_source" "m365" soc_p1).1,
   (soc_run_findings_nonempty travel0 pi0 0 "log_source" "m365" soc_p1).2.1
     {} [] rfl (by decide)⟩

/-- Claim C9: for every non-empty list batch, `SocRules.run` writes the
raw input batch verbatim (unfiltered) to the artifact file, and the
returned result's `artifact_path` references exactly that file — also
when no rule fires, since neither fact depends on the findings. -/
theorem soc_run_artifact_write (travel : List NormEvent → List Finding)
    (parseIso : String → Option Int) (now : Int) (asset_kind asset_value : String)
    (p : SocParams) (e : Event) (es : List Event)
    (hE : p.events = some (.list (e :: es))) :
    (SocRules.run travel parseIso now asset_kind asset_value p).writes =
      [(socArtifactPath p now, e :: es)] ∧
    (SocRules.run travel parseIso now asset_kind asset_value p).result.artifact_path =
      some (socArtifactPath p now) := by
  simp [SocRules.run, hE]

/-- Witness for C9 at the one-event batch. -/
theorem soc_run_artifact_write_witness :
    (SocRules.run travel0 pi0 0 "log_source" "m365" soc_p1).writes =
      [(socArtifactPath soc_p1 0, [{}])] ∧
    (SocRules.run travel0 pi0 0 "log_source" "m365" soc_p1).result.artifact_path =
      some (socArtifactPath soc_p1 0) :=
  soc_run_artifact_write travel0 pi0 0 "log_source" "m365" soc_p1 {} [] rfl

/-- The empty `params` dict. -/
def soc_p0 : SocParams := {}

/-- Claim C10: when `params["events"]` is absent, not a list, or the
empty list, `SocRules.run` returns before writing any artifact: no file
write, `artifact_path = None`, and exactly the one informational
no-events finding. -/
theorem soc_run_no_events_early_return (travel : List NormEvent → List Finding)
    (parseIso : String → Option Int) (now : Int) (asset_kind asset_value : String)
    (p : SocParams)
    (hE : p.events = none ∨ p.events = some .notList ∨ p.events = some (.list [])) :
    (SocRules.run travel parseIso now asset_kind asset_value p).writes = [] ∧
    (SocRules.run travel parseIso now asset_kind asset_value p).result.artifact_path =
      none ∧
    (SocRules.run travel parseIso now asset_kind asset_value p).result.findings =
      [noEventsFinding] ∧
    noEventsFinding.severity = "info" := by
  rcases hE with h | h | h <;> simp [SocRules.run, h, noEventsFinding]

/-- Witness for C10 with the `events` key absent. -/
theorem soc_run_no_events_early_return_witness :
    (SocRules.run travel0 pi0 0 "log_source" "m365" soc_p0).writes = [] ∧
    (SocRules.run travel0 pi0 0 "log_source" "m365" soc_p0).result.artifact_path =
      none ∧
    (SocRules.run travel0 pi0 0 "log_source" "m365" soc_p0).result.findings =
      [noEventsFinding] ∧
    noEventsFinding.severity = "info" :=
  soc_run_no_events_early_return travel0 pi0 0 "log_source" "m365" soc_p0 (Or.inl rfl)

/-- Claim C7: when the nuclei binary is not resolvable, the adapter
returns exactly one `scanner_error` finding of severity high naming the
missing dependency, and spawns no external process. -/
theorem nuclei_run_missing_binary (env : NucleiEnv) (now : Int)
    (asset_kind asset_value : String) (p : NucleiParams)
    (h : env.nucleiOnPath = false) :
    (NucleiScan.run env now asset_kind asset_value p).procCalls = [] ∧
    (NucleiScan.run env now asset_kind asset_value p).result.findings =
      [nucleiMissingFinding] ∧
    (NucleiScan.run env now asset_kind asset_value p).result.artifact_path = none ∧
    nucleiMissingFinding.category = "scanner_error" ∧
    nucleiMissingFinding.severity = "high" ∧
    strContains nucleiMissingFinding.evidence "nuclei" = true := by
  refine ⟨?_, ?_, ?_, rfl, rfl, by decide⟩ <;> simp [NucleiScan.run, h]

/-- An environment without the nuclei binary. -/
def envNoBinary : NucleiEnv :=
  { nucleiOnPath := false, templatesDirIsDir := fun _ => false,
    outPathExists := fun _ => false, subproc := .completed }

/-- The empty nuclei `params` dict. -/
def nuc_p0 : NucleiParams := {}

/-- Witness for C7. -/
theorem nuclei_run_missing_binary_witness :
    (NucleiScan.run envNoBinary 0 "url" "https://x.example" nuc_p0).procCalls = [] ∧
    (NucleiScan.run envNoBinary 0 "url" "https://x.example" nuc_p0).result.findings =
      [nucleiMissingFinding] ∧
    (NucleiScan.run envNoBinary 0 "url" "https://x.example" nuc_p0).result.artifact_path =
      none ∧
    nucleiMissingFinding.category = "scanner_error" ∧
    nucleiMissingFinding.severity = "high" ∧
    strContains nucleiMissingFinding.evidence "nuclei" = true :=
  nuclei_run_missing_binary envNoBinary 0 "url" "https://x.example" nuc_p0 rfl

/-- Claim C8: when the subprocess exceeds the wall-clock timeout, the
adapter returns exactly one `scanner_error` finding of severity medium
whose evidence names the timeout value and the target, and surfaces the
artifact path iff the file exists (partially written). -/
theorem nuclei_run_timeout (env : NucleiEnv) (now : Int)
    (asset_kind asset_value : String) (p : NucleiParams)
    (h1 : env.nucleiOnPath = true) (h2 : env.subproc = .timedOut) :
    (NucleiScan.run env now asset_kind asset_value p).result.findings =
      [nucleiTimeoutFinding (pyOrInt p.wall_clock_timeout 600)
        (coerceTarget asset_kind asset_value p.target_url)] ∧
    (nucleiTimeoutFinding (pyOrInt p.wall_clock_timeout 600)
      (coerceTarget asset_kind asset_value p.target_url)).category = "scanner_error" ∧
    (nucleiTimeoutFinding (pyOrInt p.wall_clock_timeout 600)
      (coerceTarget asset_kind asset_value p.target_url)).severity = "medium" ∧
    (nucleiTimeoutFinding (pyOrInt p.wall_clock_timeout 600)
      (coerceTarget asset_kind asset_value p.target_url)).evidence =
      "Scan exceeded wall_clock_timeout=" ++ toString (pyOrInt p.wall_clock_timeout 600) ++
        "s for target=" ++ coerceTarget asset_kind asset_value p.target_url ++ "." ∧
    (NucleiScan.run env now asset_kind asset_value p).result.artifact_path =
      (if env.outPathExists (nucleiOutPath p now) then some (nucleiOutPath p now)
       else none) := by
  refine ⟨?_, rfl, rfl, rfl, ?_⟩ <;> simp [NucleiScan.run, h1, h2]

/-- An environment whose subprocess never returns in time and leaves no
partial artifact. -/
def envTimeout : NucleiEnv :=
  { nucleiOnPath := true, templatesDirIsDir := fun _ => false,
    outPathExists := fun _ => false, subproc := .timedOut }

/-- The nuclei `params` dict of the spec's timeout scenario
(`wall_clock_timeout = 1`). -/
def nuc_p1 : NucleiParams := { wall_clock_timeout := some 1 }

/-- Witness for C8. -/
theorem nuclei_run_timeout_witness :
    (NucleiScan.run envTimeout 0 "url" "https://x.example" nuc_p1).result.findings =
      [nucleiTimeoutFinding (pyOrInt nuc_p1.wall_clock_timeout 600)
        (coerceTarget "url" "https://x.example" nuc_p1.target_url)] ∧
    (nucleiTimeoutFinding (pyOrInt nuc_p1.wall_clock_timeout 600)
      (coerceTarget "url" "https://x.example" nuc_p1.target_url)).severity = "medium" ∧
    (NucleiScan.run envTimeout 0 "url" "https://x.example" nuc_p1).result.artifact_path =
      (if envTimeout.outPathExists (nucleiOutPath nuc_p1 0)
       then some (nucleiOutPath nuc_p1 0) else none) :=
  ⟨(nuclei_run_timeout envTimeout 0 "url" "https://x.example" nuc_p1 rfl rfl).1,
   (nuclei_run_timeout envTimeout 0 "url" "https://x.example" nuc_p1 rfl rfl).2.2.1,
   (nuclei_run_timeout envTimeout 0 "url" "https://x.example" nuc_p1 rfl rfl).2.2.2.2⟩

/-- Claim C2 (spec-modelled success return): when the binary is
resolvable and the subprocess completes within the timeout without
raising, the adapter reports success — the artifact path is the
constructed artifact file path, no `scanner_error` finding is returned,
and exactly one subprocess (the constructed nuclei command) was run. -/
theorem nuclei_run_success (env : NucleiEnv) (now : Int)
    (asset_kind asset_value : String) (p : NucleiParams)
    (h1 : env.nucleiOnPath = true) (h2 : env.subproc = .completed) :
    (NucleiScan.run env now asset_kind asset_value p).result.artifact_path =
      some (nucleiOutPath p now) ∧
    (∀ f ∈ (NucleiScan.run env now asset_kind asset_value p).result.findings,
      f.category ≠ "scanner_error") ∧
    (NucleiScan.run env now asset_kind asset_value p).procCalls =
      [nucleiCmd env p now (coerceTarget asset_kind asset_value p.target_url)] := by
  refine ⟨?_, ?_, ?_⟩ <;> simp [NucleiScan.run, h1, h2, nucleiSuccessResult]

/-- An environment whose subprocess completes normally. -/
def envSuccess : NucleiEnv :=
  { nucleiOnPath := true, templatesDirIsDir := fun _ => false,
    outPathExists := fun _ => true, subproc := .completed }

/-- Witness for C2. -/
theorem nuclei_run_success_witness :
    (NucleiScan.run envSuccess 0 "url" "https://x.example" nuc_p0).result.artifact_path =
      some (nucleiOutPath nuc_p0 0) ∧
    (∀ f ∈ (NucleiScan.run envSuccess 0 "url" "https://x.example" nuc_p0).result.findings,
      f.category ≠ "scanner_error") ∧
    (NucleiScan.run envSuccess 0 "url" "https://x.example" nuc_p0).procCalls =
      [nucleiCmd envSuccess nuc_p0 0 (coerceTarget "url" "https://x.example" nuc_p0.target_url)] :=
  nuclei_run_success envSuccess 0 "url" "https://x.example" nuc_p0 rfl rfl

/-- A `ScanRun` row that already reached the terminal state `done`. -/
def scanDoneRow : ScanRun :=
  { id := "s1", asset_id := "a1", status := "done", finished_at := some 50,
    artifact_path := some "/tmp/threatsense_artifacts/a.json" }

/-- A store holding the terminal run but no row for its asset. -/
def dbTerminalNoAsset : DB :=
  { scans := [scanDoneRow], assets := [], findings := [] }

/-- The same store with the asset row present. -/
def dbTerminalWithAsset : DB :=
  { scans := [scanDoneRow], assets := [{ id := "a1" }], findings := [] }

/-- Claim C1 (code bug): re-delivering a `ScanRun` that already reached
the terminal state `done` is NOT a no-op when the referenced `Asset` row
is missing — `run_scan` checks the asset (lines 28-34 of
`scan_task.py`) before the terminal-status guard (line 36), so the run is
mutated from `done` to `failed` with `error_message` "Asset not found".
With the asset present the guard fires and the invocation is a no-op, so
the violation is exactly the missing-asset path. No `Finding` rows are
created in either case. -/
theorem run_scan_terminal_missing_asset_mutates :
    (run_scan (fun db _ _ => db) 99 dbTerminalNoAsset "s1").scans.map
        (fun s => (s.status, s.error_message)) =
      [("failed", some "Asset not found")] ∧
    run_scan (fun db _ _ => db) 99 dbTerminalNoAsset "s1" ≠ dbTerminalNoAsset ∧
    scanDoneRow.status = "done" ∧
    (run_scan (fun db _ _ => db) 99 dbTerminalNoAsset "s1").findings = [] ∧
    run_scan (fun db _ _ => db) 99 dbTerminalWithAsset "s1" = dbTerminalWithAsset := by
  refine ⟨by decide, by decide, rfl, by decide, by decide⟩
